import Mathlib

/-!
Shallow embedding of `xobs/websocket-server-example` (src/lib.rs, src/api.rs).

The repository is a client-side multiplexer for a remote websocket service:
a poll thread repeatedly allocates a 4096-byte buffer, lends it to the
server via a blocking `Poll` message, and routes the returned buffer (a
`WebSocketPacket`) to the mpsc channel registered for the response's
target handle.  External host services (the xous kernel's `map_memory`,
`unmap_memory`, `send_message`, `connect`, and thread spawning) are
modelled as environment inputs and recorded events; everything the
repository itself computes is translated directly from the source.
-/

/-- Model of `xous::MemoryRange`: a page-aligned block of raw memory,
identified by its start address and size in bytes.  `MemoryRange` is a
plain `Copy` value in xous; equality is by address and size. -/
structure MemoryRange where
  addr : Nat
  size : Nat
deriving DecidableEq, Repr

/-- `MemoryRange::len()`: the size of the region in bytes. -/
def MemoryRange.len (m : MemoryRange) : Nat := m.size

/-- Model of `struct WebSocketPacket { backing: xous::MemoryRange, valid: usize }`
(src/lib.rs lines 15-18). -/
structure WebSocketPacket where
  backing : MemoryRange
  valid : Nat
deriving DecidableEq, Repr

/-- `WebSocketPacket::new(backing, valid)` (src/lib.rs lines 21-27):
`valid` is an `Option<xous::MemorySize>`; the stored field is
`backing.len().min(valid.map(|v| v.get()).unwrap_or_default())`. -/
def WebSocketPacket.new (backing : MemoryRange) (valid : Option Nat) : WebSocketPacket :=
  { backing := backing
    valid := Nat.min backing.len ((valid.map (fun v => v)).getD 0) }

/-- `WebSocketPacket::len()` (src/lib.rs lines 29-31): returns the `valid` field. -/
def WebSocketPacket.len (p : WebSocketPacket) : Nat := p.valid

/-- A raw-parts slice as produced by `core::slice::from_raw_parts`: the
element pointer and the number of elements. -/
structure SliceView where
  start : Nat
  length : Nat
deriving DecidableEq, Repr

/-- `WebSocketPacket::as_slice::<T>()` (src/lib.rs lines 36-43):
`from_raw_parts(self.backing.as_ptr() as *const T, self.len() / size_of::<T>())`.
`sizeT` stands for `core::mem::size_of::<T>()` of the chosen element type. -/
def WebSocketPacket.as_slice (p : WebSocketPacket) (sizeT : Nat) : SliceView :=
  { start := p.backing.addr, length := p.len / sizeT }

/-- `WebSocketPacket::as_slice_mut::<T>()` (src/lib.rs lines 45-52): same
pointer and length arithmetic as `as_slice`, with a mutable pointer. -/
def WebSocketPacket.as_slice_mut (p : WebSocketPacket) (sizeT : Nat) : SliceView :=
  { start := p.backing.addr, length := p.len / sizeT }

/-- `impl Drop for WebSocketPacket` (src/lib.rs lines 56-60): dropping a
packet performs exactly one `xous::unmap_memory(self.backing)`.  The model
records the release event. -/
def WebSocketPacket.dropReleases (p : WebSocketPacket) : List MemoryRange :=
  [p.backing]

/-- Model of `struct WebSocketReceiver { pipe: mpsc::Sender<WebSocketPacket> }`
(src/lib.rs lines 10-12).  The only observable property of the `Sender`
used by the poll thread is whether `send` succeeds, which fails exactly
when the receiving end of the channel has been dropped; `closed` records
that state. -/
structure WebSocketReceiver where
  closed : Bool
deriving DecidableEq, Repr

/-- The registry `HashMap<WebSocketFd, WebSocketReceiver>` modelled as an
association list from the `u16` handle value to its receiver; `get` on the
map is lookup by handle equality (`WebSocketFd` derives `Eq`/`Hash` on its
`u16`). -/
def findReceiver : List (Nat × WebSocketReceiver) → Nat → Option WebSocketReceiver
  | [], _ => none
  | (k, r) :: rest, fd => if k = fd then some r else findReceiver rest fd

/-- The shape of `xous::Result` as far as the poll thread inspects it
(src/lib.rs line 92): either `MemoryReturned(offset, valid)` with two
optional integers, or any other variant. -/
inductive PollResponse where
  | memoryReturned (offset : Option Nat) (valid : Option Nat)
  | otherShape
deriving DecidableEq, Repr

/-- The distinct ways one iteration of `websocket_poll_thread` can panic,
killing the poll thread: `expect("out of memory")` on `map_memory`
failure (line 79), `expect("couldn't send")` on `send_message` failure
(line 86), and `try_into().unwrap()` overflowing `u16` (line 95). -/
inductive PanicCause where
  | outOfMemory
  | sendMessageFailed
  | fdConversionOverflow
deriving DecidableEq, Repr

/-- Control outcome of one iteration: loop around to the next iteration,
or panic (the thread terminates). -/
inductive Outcome where
  | nextIteration
  | fatal (cause : PanicCause)
deriving DecidableEq, Repr

/-- Log output of the poll thread.  `unknownFd` is the `println!` at
src/lib.rs line 105. -/
inductive LogEvent where
  | unknownFd
deriving DecidableEq, Repr

/-- Everything observable about one iteration of the poll loop:
the control outcome, the packet (if any) placed into a handle's channel,
the `unmap_memory` release events performed during the iteration in
order, and the log lines printed. -/
structure IterResult where
  outcome : Outcome
  delivered : Option (Nat × WebSocketPacket)
  releases : List MemoryRange
  logs : List LogEvent
deriving DecidableEq, Repr

/-- `usize::try_into::<u16>()`: succeeds exactly on values below 2^16,
returning the value unchanged; fails (and `unwrap` panics) above. -/
def u16TryFrom (n : Nat) : Option Nat :=
  if n < 65536 then some n else none

/-- One iteration of the body of `loop { ... }` in `websocket_poll_thread`
(src/lib.rs lines 70-111), with the host environment supplied as inputs:
`alloc` is the result of `map_memory(None, None, 4096, R|W)` (`none` =
allocation failure), and `response` the result of
`send_message(cid, Poll(buffer))` (`none` = send failure, otherwise the
returned `xous::Result` shape).  Control flow is translated branch by
branch:
* allocation failure panics via `expect("out of memory")`;
* send failure panics via `expect("couldn't send")`;
* on `MemoryReturned(offset, valid)`, the target fd is
  `offset.map(|o| o.get()).unwrap_or(0).try_into().unwrap()` — panicking
  when the value exceeds `u16::MAX`;
* a registered receiver with a live channel takes the packet and the
  iteration `continue`s with no release;
* a registered receiver whose channel is closed makes `send` return
  `Err(SendError(packet))`; the packet inside the dropped `SendError` is
  released by `Drop`, then line 109 unmaps `buffer` again;
* an unregistered fd prints the error line and line 109 unmaps `buffer`;
* any non-`MemoryReturned` response falls past the `if let` block — which
  contains the line-109 unmap — straight to the next iteration. -/
def pollIteration (receivers : List (Nat × WebSocketReceiver))
    (alloc : Option MemoryRange) (response : Option PollResponse) : IterResult :=
  match alloc with
  | none => ⟨.fatal .outOfMemory, none, [], []⟩
  | some buffer =>
    match response with
    | none => ⟨.fatal .sendMessageFailed, none, [], []⟩
    | some (.memoryReturned offset valid) =>
      match u16TryFrom ((offset.map (fun o => o)).getD 0) with
      | none => ⟨.fatal .fdConversionOverflow, none, [], []⟩
      | some fd =>
        match findReceiver receivers fd with
        | some receiver =>
          if receiver.closed then
            ⟨.nextIteration, none,
              (WebSocketPacket.new buffer valid).dropReleases ++ [buffer], []⟩
          else
            ⟨.nextIteration, some (fd, WebSocketPacket.new buffer valid), [], []⟩
        | none => ⟨.nextIteration, none, [buffer], [.unknownFd]⟩
    | some .otherShape => ⟨.nextIteration, none, [], []⟩

/-- Total number of times the iteration's buffer `b` is (eventually)
released: the `unmap_memory` events performed inside the iteration, plus
the single `Drop` release performed by the consumer for a packet that was
successfully handed over to a channel. -/
def IterResult.totalReleases (r : IterResult) (b : MemoryRange) : Nat :=
  (r.releases ++ (match r.delivered with
    | some (_, p) => p.dropReleases
    | none => [])).count b

/-- Accumulated observable state of a run of `websocket_poll_thread` over
several iterations: the FIFO contents of each handle's mpsc channel (an
`mpsc::Sender` appends at the tail, in program order), all `unmap_memory`
events, all log lines, and whether the thread has panicked. -/
structure LoopTrace where
  channels : Nat → List WebSocketPacket
  releases : List MemoryRange
  logs : List LogEvent
  panicked : Option PanicCause

/-- The trace before the first iteration: all channels empty, no events. -/
def initTrace : LoopTrace :=
  { channels := fun _ => [], releases := [], logs := [], panicked := none }

/-- Fold one iteration's observations into the trace: a delivered packet is
appended to the tail of its handle's channel, release and log events are
appended in order, and a fatal outcome marks the thread as panicked. -/
def applyIter (t : LoopTrace) (r : IterResult) : LoopTrace :=
  { channels := fun fd =>
      t.channels fd ++ (match r.delivered with
        | some (fd2, p) => if fd2 = fd then [p] else []
        | none => [])
    releases := t.releases ++ r.releases
    logs := t.logs ++ r.logs
    panicked := match r.outcome with
      | .nextIteration => t.panicked
      | .fatal c => some c }

/-- One environment step for the loop: the `map_memory` outcome for this
iteration and the `send_message` outcome for the lent buffer. -/
def LoopStep : Type := Option MemoryRange × Option PollResponse

/-- Run `websocket_poll_thread` from a trace through a finite prefix of
environment steps.  A panicked thread executes nothing further: once
`panicked` is set, the remaining steps are ignored. -/
def runLoopFrom (receivers : List (Nat × WebSocketReceiver)) :
    LoopTrace → List LoopStep → LoopTrace
  | t, [] => t
  | t, s :: rest =>
    if t.panicked.isSome then t
    else runLoopFrom receivers (applyIter t (pollIteration receivers s.1 s.2)) rest

/-- Run the poll thread from its start through the given environment steps. -/
def runLoop (receivers : List (Nat × WebSocketReceiver))
    (steps : List LoopStep) : LoopTrace :=
  runLoopFrom receivers initTrace steps

/-- An environment step on which the iteration does not panic: the
allocation succeeds, the send succeeds, and when the response is
`MemoryReturned` its target handle (absent defaulting to 0) fits in
`u16`. -/
def stepOk (s : LoopStep) : Bool :=
  match s with
  | (some _, some (.memoryReturned offset _)) => (offset.getD 0) < 65536
  | (some _, some .otherShape) => true
  | _ => false

/-- The packets the remote service returned for handle `fd`, in the order
it returned them.  Modelled from the spec's ordering clause: for each
`MemoryReturned` response whose target handle (absent defaulting to 0)
equals `fd`, the packet built from that response's buffer and valid
length. -/
def specPacketsFor (fd : Nat) (steps : List LoopStep) : List WebSocketPacket :=
  steps.filterMap fun s =>
    match s with
    | (some b, some (.memoryReturned offset valid)) =>
      if offset.getD 0 = fd then some (WebSocketPacket.new b valid) else none
    | _ => none

/-- Model of `struct WebSocketService { receivers: Arc<Mutex<HashMap<..>>>, cid: CID }`
(src/lib.rs lines 114-118).  `receivers` is the identity of the shared,
mutex-protected registry (the `Arc` allocation), `cid` the connection
identifier. -/
structure WebSocketService where
  receivers : Nat
  cid : Nat
deriving DecidableEq, Repr

/-- Result of `WebSocketService::new()` (src/lib.rs lines 121-131):
either the `expect("couldn't connect to websocket server")` panic when
`xous::connect` fails, or the constructed service together with the
initial contents of the freshly created registry and the number of poll
threads spawned by this call. -/
inductive NewResult where
  | connectPanic
  | ok (svc : WebSocketService) (registryInit : List (Nat × WebSocketReceiver))
      (pollThreadsSpawned : Nat)
deriving DecidableEq, Repr

/-- `WebSocketService::new()`: creates `Arc::new(Mutex::new(HashMap::new()))`
(a fresh registry, here with identity `freshRegistry`, initially empty),
connects to the hardcoded server name (`connectResult` is the outcome of
`xous::connect`, `none` meaning the server cannot be reached, which
panics via `expect`), spawns `websocket_poll_thread` exactly once with a
clone of the registry `Arc` and the cid, and returns the service. -/
def WebSocketService.new (connectResult : Option Nat) (freshRegistry : Nat) : NewResult :=
  match connectResult with
  | none => .connectPanic
  | some cid => .ok { receivers := freshRegistry, cid := cid } [] 1

/-- `#[derive(Clone)]` on `WebSocketService` (src/lib.rs line 114):
cloning clones the `Arc` (sharing the same registry allocation) and
copies the `cid`; no code runs beyond the field clones, so no poll thread
is spawned (the second component counts threads spawned by the clone). -/
def WebSocketService.clone (s : WebSocketService) : WebSocketService × Nat :=
  (s, 0)

theorem runLoopFrom_of_panicked (receivers : List (Nat × WebSocketReceiver))
    (t : LoopTrace) (h : t.panicked.isSome = true) (steps : List LoopStep) :
    runLoopFrom receivers t steps = t := by
  cases steps with
  | nil => rfl
  | cons s rest => simp [runLoopFrom, h]

theorem runLoopFrom_cons (receivers : List (Nat × WebSocketReceiver))
    (t : LoopTrace) (ht : t.panicked = none) (s : LoopStep) (rest : List LoopStep) :
    runLoopFrom receivers t (s :: rest)
      = runLoopFrom receivers (applyIter t (pollIteration receivers s.1 s.2)) rest := by
  simp [runLoopFrom, ht]

theorem applyIter_panicked_of_next (t : LoopTrace) (r : IterResult)
    (h : r.outcome = .nextIteration) : (applyIter t r).panicked = t.panicked := by
  simp [applyIter, h]

theorem applyIter_channels_of_delivered (t : LoopTrace) (r : IterResult)
    (fd : Nat) (p : WebSocketPacket) (h : r.delivered = some (fd, p)) :
    (applyIter t r).channels fd = t.channels fd ++ [p] := by
  simp [applyIter, h]

theorem applyIter_channels_of_not_delivered (t : LoopTrace) (r : IterResult)
    (fd : Nat) (h : ∀ p, r.delivered ≠ some (fd, p)) :
    (applyIter t r).channels fd = t.channels fd := by
  simp only [applyIter]
  cases hd : r.delivered with
  | none => simp
  | some pr =>
    obtain ⟨fd2, p⟩ := pr
    have hne : fd2 ≠ fd := by
      intro he
      exact h p (by rw [hd, he])
    simp [hne]

theorem pollIteration_memoryReturned (receivers : List (Nat × WebSocketReceiver))
    (b : MemoryRange) (off : Option Nat) (v : Option Nat)
    (hlt : off.getD 0 < 65536) :
    pollIteration receivers (some b) (some (.memoryReturned off v)) =
      (match findReceiver receivers (off.getD 0) with
      | some receiver =>
        if receiver.closed then
          (⟨.nextIteration, none, [b, b], []⟩ : IterResult)
        else
          ⟨.nextIteration, some (off.getD 0, WebSocketPacket.new b v), [], []⟩
      | none => ⟨.nextIteration, none, [b], [.unknownFd]⟩) := by
  have hmap : ((off.map (fun o => o)).getD 0) = off.getD 0 := by cases off <;> rfl
  have hu : u16TryFrom (off.getD 0) = some (off.getD 0) := by
    simp [u16TryFrom, hlt]
  simp only [pollIteration, hmap, hu, WebSocketPacket.dropReleases, WebSocketPacket.new,
    List.cons_append, List.nil_append]

theorem runLoopFrom_channels_of_ok (receivers : List (Nat × WebSocketReceiver)) (fd : Nat)
    (hfd : findReceiver receivers fd = some ⟨false⟩) (steps : List LoopStep) :
    ∀ (t : LoopTrace), t.panicked = none → (∀ s ∈ steps, stepOk s = true) →
      (runLoopFrom receivers t steps).channels fd
        = t.channels fd ++ specPacketsFor fd steps := by
  induction steps with
  | nil =>
    intro t ht hok
    simp [runLoopFrom, specPacketsFor]
  | cons s rest ih =>
    intro t ht hok
    have hs : stepOk s = true := hok s (List.mem_cons_self s rest)
    have hrest : ∀ x ∈ rest, stepOk x = true := fun x hx => hok x (List.mem_cons_of_mem s hx)
    obtain ⟨a, r⟩ := s
    rw [runLoopFrom_cons receivers t ht (a, r) rest]
    match a, r with
    | some b, some (.memoryReturned off v) =>
      have hlt : off.getD 0 < 65536 := by simpa [stepOk] using hs
      by_cases heq : off.getD 0 = fd
      · have hfr : findReceiver receivers (off.getD 0) = some ⟨false⟩ := by rw [heq]; exact hfd
        have hpi : pollIteration receivers (some b) (some (.memoryReturned off v))
            = ⟨.nextIteration, some (off.getD 0, WebSocketPacket.new b v), [], []⟩ := by
          rw [pollIteration_memoryReturned receivers b off v hlt, hfr]; simp
        rw [hpi]
        have ht2 : (applyIter t
            (⟨.nextIteration, some (off.getD 0, WebSocketPacket.new b v), [], []⟩ : IterResult)).panicked
            = none := by
          rw [applyIter_panicked_of_next _ _ rfl]; exact ht
        rw [ih _ ht2 hrest]
        rw [applyIter_channels_of_delivered t _ fd (WebSocketPacket.new b v) (by simp [heq])]
        simp [specPacketsFor, heq, List.filterMap_cons]
      · cases hfr : findReceiver receivers (off.getD 0) with
        | none =>
          have hpi : pollIteration receivers (some b) (some (.memoryReturned off v))
              = ⟨.nextIteration, none, [b], [.unknownFd]⟩ := by
            rw [pollIteration_memoryReturned receivers b off v hlt, hfr]
          rw [hpi]
          have ht2 : (applyIter t
              (⟨.nextIteration, none, [b], [.unknownFd]⟩ : IterResult)).panicked = none := by
            rw [applyIter_panicked_of_next _ _ rfl]; exact ht
          rw [ih _ ht2 hrest]
          rw [applyIter_channels_of_not_delivered t _ fd (fun p => by simp)]
          simp [specPacketsFor, heq, List.filterMap_cons]
        | some rcv =>
          cases hcl : rcv.closed with
          | true =>
            have hpi : pollIteration receivers (some b) (some (.memoryReturned off v))
                = ⟨.nextIteration, none, [b, b], []⟩ := by
              rw [pollIteration_memoryReturned receivers b off v hlt, hfr]; simp [hcl]
            rw [hpi]
            have ht2 : (applyIter t
                (⟨.nextIteration, none, [b, b], []⟩ : IterResult)).panicked = none := by
              rw [applyIter_panicked_of_next _ _ rfl]; exact ht
            rw [ih _ ht2 hrest]
            rw [applyIter_channels_of_not_delivered t _ fd (fun p => by simp)]
            simp [specPacketsFor, heq, List.filterMap_cons]
          | false =>
            have hpi : pollIteration receivers (some b) (some (.memoryReturned off v))
                = ⟨.nextIteration, some (off.getD 0, WebSocketPacket.new b v), [], []⟩ := by
              rw [pollIteration_memoryReturned receivers b off v hlt, hfr]; simp [hcl]
            rw [hpi]
            have ht2 : (applyIter t
                (⟨.nextIteration, some (off.getD 0, WebSocketPacket.new b v), [], []⟩ : IterResult)).panicked
                = none := by
              rw [applyIter_panicked_of_next _ _ rfl]; exact ht
            rw [ih _ ht2 hrest]
            rw [applyIter_channels_of_not_delivered t _ fd (fun p => by simp [heq])]
            simp [specPacketsFor, heq, List.filterMap_cons]
    | some b, some .otherShape =>
      have hpi : pollIteration receivers (some b) (some .otherShape)
          = ⟨.nextIteration, none, [], []⟩ := rfl
      rw [hpi]
      have ht2 : (applyIter t (⟨.nextIteration, none, [], []⟩ : IterResult)).panicked = none := by
        rw [applyIter_panicked_of_next _ _ rfl]; exact ht
      rw [ih _ ht2 hrest]
      rw [applyIter_channels_of_not_delivered t _ fd (fun p => by simp)]
      simp [specPacketsFor, List.filterMap_cons]
    | none, r => simp [stepOk] at hs
    | some b, none => simp [stepOk] at hs

/-- Claim C3: for every backing region and every optional reported valid
length, `WebSocketPacket::new` stores
`valid = min(backing.len(), valid_hint.unwrap_or(0))`, so `valid` never
exceeds the capacity of the backing region, even when the reported
valid-length input exceeds it. -/
theorem packet_new_clamps_valid (backing : MemoryRange) (hint : Option Nat) :
    (WebSocketPacket.new backing hint).valid = min backing.len (hint.getD 0)
    ∧ (WebSocketPacket.new backing hint).valid ≤ backing.len := by
  constructor
  · cases hint <;> rfl
  · exact Nat.min_le_left _ _

/-- Claim C7: for every packet and every element size `sizeT` of a chosen
element type, `len()` returns the stored `valid`, and `as_slice` /
`as_slice_mut` view the buffer from its start with
`valid / sizeT` elements, a span of at most `valid` bytes. -/
theorem len_and_slice_views (p : WebSocketPacket) (sizeT : Nat) (h : 0 < sizeT) :
    p.len = p.valid
    ∧ p.as_slice sizeT = ⟨p.backing.addr, p.valid / sizeT⟩
    ∧ p.as_slice_mut sizeT = ⟨p.backing.addr, p.valid / sizeT⟩
    ∧ (p.as_slice sizeT).length * sizeT ≤ p.valid :=
  ⟨rfl, rfl, rfl, Nat.div_mul_le_self p.valid sizeT⟩

/-- Witness for `len_and_slice_views` at the packet built from a 4096-byte
region with reported valid length 10 and element size 4. -/
theorem len_and_slice_views_witness :
    0 < 4
    ∧ ((WebSocketPacket.new ⟨0, 4096⟩ (some 10)).len
        = (WebSocketPacket.new ⟨0, 4096⟩ (some 10)).valid
      ∧ (WebSocketPacket.new ⟨0, 4096⟩ (some 10)).as_slice 4
        = ⟨(WebSocketPacket.new ⟨0, 4096⟩ (some 10)).backing.addr,
           (WebSocketPacket.new ⟨0, 4096⟩ (some 10)).valid / 4⟩
      ∧ (WebSocketPacket.new ⟨0, 4096⟩ (some 10)).as_slice_mut 4
        = ⟨(WebSocketPacket.new ⟨0, 4096⟩ (some 10)).backing.addr,
           (WebSocketPacket.new ⟨0, 4096⟩ (some 10)).valid / 4⟩
      ∧ ((WebSocketPacket.new ⟨0, 4096⟩ (some 10)).as_slice 4).length * 4
        ≤ (WebSocketPacket.new ⟨0, 4096⟩ (some 10)).valid) :=
  ⟨by decide, len_and_slice_views (WebSocketPacket.new ⟨0, 4096⟩ (some 10)) 4 (by decide)⟩

/-- Claim C4: a packet is delivered by an iteration only when the response
is `MemoryReturned`, and then only into the channel found in the registry
under exactly the response's target handle (absent handle defaulting to
0); the packet is the one built from that response's buffer and valid
length. -/
theorem packet_delivered_only_to_target_handle
    (receivers : List (Nat × WebSocketReceiver)) (alloc : Option MemoryRange)
    (response : Option PollResponse) (fd : Nat) (pkt : WebSocketPacket)
    (h : (pollIteration receivers alloc response).delivered = some (fd, pkt)) :
    ∃ b offset valid,
      alloc = some b
      ∧ response = some (.memoryReturned offset valid)
      ∧ fd = offset.getD 0
      ∧ findReceiver receivers fd = some ⟨false⟩
      ∧ pkt = WebSocketPacket.new b valid := by
  match alloc, response with
  | none, _ => simp [pollIteration] at h
  | some b, none => simp [pollIteration] at h
  | some b, some .otherShape => simp [pollIteration] at h
  | some b, some (.memoryReturned off v) =>
    refine ⟨b, off, v, rfl, rfl, ?_⟩
    have hmap : ((off.map (fun o => o)).getD 0) = off.getD 0 := by cases off <;> rfl
    by_cases hlt : off.getD 0 < 65536
    · rw [pollIteration_memoryReturned receivers b off v hlt] at h
      cases hfr : findReceiver receivers (off.getD 0) with
      | none => rw [hfr] at h; simp at h
      | some rcv =>
        rw [hfr] at h
        cases hc : rcv.closed with
        | true => simp [hc] at h
        | false =>
          simp [hc] at h
          obtain ⟨hfd, hpkt⟩ := h
          have hrcv : rcv = ⟨false⟩ := by cases rcv; simp_all
          refine ⟨hfd.symm, ?_, hpkt.symm⟩
          rw [← hfd, hfr, hrcv]
    · have hu : u16TryFrom (off.getD 0) = none := by simp [u16TryFrom, hlt]
      simp only [pollIteration, hmap, hu] at h
      simp at h

/-- Witness for `packet_delivered_only_to_target_handle` at a registry
holding handle 5 open and a response targeting handle 5. -/
theorem packet_delivered_only_to_target_handle_witness :
    (pollIteration [(5, ⟨false⟩)] (some ⟨12288, 4096⟩)
        (some (.memoryReturned (some 5) (some 9)))).delivered
      = some (5, WebSocketPacket.new ⟨12288, 4096⟩ (some 9))
    ∧ ∃ b offset valid,
        (some ⟨12288, 4096⟩ : Option MemoryRange) = some b
        ∧ (some (.memoryReturned (some 5) (some 9)) : Option PollResponse)
            = some (.memoryReturned offset valid)
        ∧ 5 = offset.getD 0
        ∧ findReceiver [(5, ⟨false⟩)] 5 = some ⟨false⟩
        ∧ WebSocketPacket.new ⟨12288, 4096⟩ (some 9) = WebSocketPacket.new b valid :=
  ⟨by decide,
   packet_delivered_only_to_target_handle [(5, ⟨false⟩)] (some ⟨12288, 4096⟩)
     (some (.memoryReturned (some 5) (some 9))) 5
     (WebSocketPacket.new ⟨12288, 4096⟩ (some 9)) (by decide)⟩

/-- Claim C5: over any finite run of the poll loop in which no iteration
panics, the packets placed into the channel of a registered, open handle
are exactly the packets the remote service returned targeting that
handle, in the same relative order — the single sequential loop introduces
no reordering. -/
theorem per_handle_delivery_preserves_order (receivers : List (Nat × WebSocketReceiver))
    (steps : List LoopStep) (fd : Nat)
    (hok : ∀ s ∈ steps, stepOk s = true)
    (hfd : findReceiver receivers fd = some ⟨false⟩) :
    (runLoop receivers steps).channels fd = specPacketsFor fd steps := by
  have hmain := runLoopFrom_channels_of_ok receivers fd hfd steps initTrace rfl hok
  simpa [runLoop, initTrace] using hmain

/-- Witness for `per_handle_delivery_preserves_order`: three responses,
two of them for handle 7 interleaved with one for handle 9. -/
theorem per_handle_delivery_preserves_order_witness :
    (∀ s ∈ ([(some ⟨0, 4096⟩, some (.memoryReturned (some 7) (some 1))),
             (some ⟨4096, 4096⟩, some (.memoryReturned (some 9) (some 2))),
             (some ⟨8192, 4096⟩, some (.memoryReturned (some 7) (some 3)))] : List LoopStep),
        stepOk s = true)
    ∧ findReceiver [(7, ⟨false⟩)] 7 = some ⟨false⟩
    ∧ (runLoop [(7, ⟨false⟩)]
        [(some ⟨0, 4096⟩, some (.memoryReturned (some 7) (some 1))),
         (some ⟨4096, 4096⟩, some (.memoryReturned (some 9) (some 2))),
         (some ⟨8192, 4096⟩, some (.memoryReturned (some 7) (some 3)))]).channels 7
      = specPacketsFor 7
        [(some ⟨0, 4096⟩, some (.memoryReturned (some 7) (some 1))),
         (some ⟨4096, 4096⟩, some (.memoryReturned (some 9) (some 2))),
         (some ⟨8192, 4096⟩, some (.memoryReturned (some 7) (some 3)))] :=
  ⟨by decide, by decide,
   per_handle_delivery_preserves_order [(7, ⟨false⟩)]
     [(some ⟨0, 4096⟩, some (.memoryReturned (some 7) (some 1))),
      (some ⟨4096, 4096⟩, some (.memoryReturned (some 9) (some 2))),
      (some ⟨8192, 4096⟩, some (.memoryReturned (some 7) (some 3)))] 7
     (by decide) (by decide)⟩

/-- Claim C8: when `map_memory` fails at the start of an iteration, the
`expect("out of memory")` is fatal: the run is identical to one that ends
at that iteration — no retry, no further iteration — with the thread
panicked, no packet delivered and no release performed. -/
theorem alloc_failure_fatal_no_continue (receivers : List (Nat × WebSocketReceiver))
    (r : Option PollResponse) (rest : List LoopStep) :
    runLoop receivers ((none, r) :: rest) = runLoop receivers [(none, r)]
    ∧ (runLoop receivers ((none, r) :: rest)).panicked = some .outOfMemory
    ∧ (∀ fd, (runLoop receivers ((none, r) :: rest)).channels fd = [])
    ∧ (runLoop receivers ((none, r) :: rest)).releases = [] := by
  have hkey : ∀ rest2 : List LoopStep, runLoop receivers ((none, r) :: rest2)
      = applyIter initTrace (⟨.fatal .outOfMemory, none, [], []⟩ : IterResult) := by
    intro rest2
    rw [runLoop, runLoopFrom_cons receivers initTrace rfl (none, r) rest2]
    rw [show pollIteration receivers (none, r).1 (none, r).2
        = (⟨.fatal .outOfMemory, none, [], []⟩ : IterResult) from rfl]
    exact runLoopFrom_of_panicked receivers
      (applyIter initTrace ⟨.fatal .outOfMemory, none, [], []⟩) rfl rest2
  refine ⟨?_, ?_, ?_, ?_⟩
  · rw [hkey rest, hkey []]
  · rw [hkey rest]; rfl
  · intro fd; rw [hkey rest]; rfl
  · rw [hkey rest]; rfl

/-- Claim C9: `WebSocketService::new()` panics (fatally, surfacing to the
caller) when `xous::connect` cannot reach the server; on success it
returns a service holding the fresh, initially empty registry and the
connection identifier, having spawned the poll thread exactly once, and
`clone` shares the same registry and connection identifier while spawning
nothing. -/
theorem service_new_clone_semantics (cid freshRegistry : Nat) (s : WebSocketService) :
    WebSocketService.new none freshRegistry = .connectPanic
    ∧ WebSocketService.new (some cid) freshRegistry = .ok ⟨freshRegistry, cid⟩ [] 1
    ∧ WebSocketService.clone s = (s, 0)
    ∧ (WebSocketService.clone s).1.receivers = s.receivers
    ∧ (WebSocketService.clone s).1.cid = s.cid
    ∧ (WebSocketService.clone s).2 = 0 :=
  ⟨rfl, rfl, rfl, rfl, rfl, rfl⟩

/-- Claim C10: a `MemoryReturned` response whose target-handle value
exceeds `u16::MAX` makes the iteration panic at the
`try_into().unwrap()` handle conversion: nothing is delivered, no
release is performed and the unmatched-handle recovery path (log plus
unmap) is not taken. -/
theorem oversized_handle_panics (receivers : List (Nat × WebSocketReceiver))
    (b : MemoryRange) (off : Nat) (valid : Option Nat) (h : 65535 < off) :
    pollIteration receivers (some b) (some (.memoryReturned (some off) valid))
      = ⟨.fatal .fdConversionOverflow, none, [], []⟩ := by
  have hu : u16TryFrom off = none := by simp [u16TryFrom]; omega
  simp [pollIteration, hu]

/-- Witness for `oversized_handle_panics` at target-handle value 65536. -/
theorem oversized_handle_panics_witness :
    65535 < 65536
    ∧ pollIteration [] (some ⟨0, 4096⟩) (some (.memoryReturned (some 65536) none))
        = ⟨.fatal .fdConversionOverflow, none, [], []⟩ :=
  ⟨by decide, oversized_handle_panics [] ⟨0, 4096⟩ 65536 none (by decide)⟩

/-- Claim C1 (code bug): the buffer of an iteration is NOT released
exactly once on every path.  Counting the iteration's `unmap_memory`
events plus the single `Drop` release of a successfully handed-over
packet: the match-and-send-success path releases once (consumer drop) and
the no-match path once (explicit unmap), but the send-failure path
releases TWICE (the packet dropped inside the returned `SendError`, then
the explicit unmap of the same range at line 109) and the
non-`MemoryReturned` path releases ZERO times (the line-109 unmap sits
inside the `if let MemoryReturned` block and is skipped). -/
theorem pollLoop_release_counts_diverge :
    (pollIteration [(7, ⟨false⟩)] (some ⟨0, 4096⟩)
        (some (.memoryReturned (some 7) (some 3)))).totalReleases ⟨0, 4096⟩ = 1
    ∧ (pollIteration [] (some ⟨0, 4096⟩)
        (some (.memoryReturned (some 9) (some 3)))).totalReleases ⟨0, 4096⟩ = 1
    ∧ (pollIteration [(7, ⟨true⟩)] (some ⟨0, 4096⟩)
        (some (.memoryReturned (some 7) (some 3)))).totalReleases ⟨0, 4096⟩ = 2
    ∧ (pollIteration [] (some ⟨0, 4096⟩) (some .otherShape)).totalReleases ⟨0, 4096⟩ = 0 := by
  decide

/-- Claim C2 (code bug): a non-`MemoryReturned` response does silently
abandon the iteration and restart the loop, but the buffer lent to that
call is never released: the iteration performs no `unmap_memory` at all
(the only unmap, line 109, is inside the `if let MemoryReturned` block),
so the 4096-byte buffer leaks. -/
theorem malformed_response_skips_release (receivers : List (Nat × WebSocketReceiver))
    (b : MemoryRange) :
    pollIteration receivers (some b) (some .otherShape)
      = ⟨.nextIteration, none, [], []⟩ :=
  rfl

/-- Counterexample to claim C6: on the send-failure path (registered
receiver, closed channel) the loop logs nothing — the `println!` is only
in the unregistered-handle `else` branch — and the backing memory is
released twice, not once. -/
theorem send_failure_unlogged_counterexample :
    (pollIteration [(7, ⟨true⟩)] (some ⟨4096, 4096⟩)
        (some (.memoryReturned (some 7) (some 3)))).logs = []
    ∧ (pollIteration [(7, ⟨true⟩)] (some ⟨4096, 4096⟩)
        (some (.memoryReturned (some 7) (some 3)))).releases = [⟨4096, 4096⟩, ⟨4096, 4096⟩]
    ∧ (pollIteration [(7, ⟨true⟩)] (some ⟨4096, 4096⟩)
        (some (.memoryReturned (some 7) (some 3)))).outcome = .nextIteration := by
  decide

/-- Claim C6 as amended: when a `MemoryReturned` response (with an
in-range handle) names a handle with no registered receiver, the loop
logs the anomaly, releases the buffer's backing memory exactly once and
continues; when it names a registered receiver whose channel send fails,
the loop logs nothing and the backing memory is released twice — once by
the drop of the packet inside the failed send and once by the explicit
unmap — before it continues.  Neither case delivers a packet to any
consumer. -/
theorem anomaly_paths_behavior (receivers : List (Nat × WebSocketReceiver))
    (b : MemoryRange) (off valid : Option Nat) (hlt : off.getD 0 < 65536) :
    (findReceiver receivers (off.getD 0) = none →
      pollIteration receivers (some b) (some (.memoryReturned off valid))
        = ⟨.nextIteration, none, [b], [.unknownFd]⟩)
    ∧ (findReceiver receivers (off.getD 0) = some ⟨true⟩ →
      pollIteration receivers (some b) (some (.memoryReturned off valid))
        = ⟨.nextIteration, none, [b, b], []⟩) := by
  constructor
  · intro hfr
    rw [pollIteration_memoryReturned receivers b off valid hlt, hfr]
  · intro hfr
    rw [pollIteration_memoryReturned receivers b off valid hlt, hfr]
    simp

/-- Witness for `anomaly_paths_behavior` at a registry holding handle 3
with a closed channel and a response targeting handle 3. -/
theorem anomaly_paths_behavior_witness :
    ((some 3 : Option Nat)).getD 0 < 65536
    ∧ ((findReceiver [(3, ⟨true⟩)] (((some 3 : Option Nat)).getD 0) = none →
        pollIteration [(3, ⟨true⟩)] (some ⟨8192, 4096⟩)
            (some (.memoryReturned (some 3) (some 5)))
          = ⟨.nextIteration, none, [⟨8192, 4096⟩], [.unknownFd]⟩)
      ∧ (findReceiver [(3, ⟨true⟩)] (((some 3 : Option Nat)).getD 0) = some ⟨true⟩ →
        pollIteration [(3, ⟨true⟩)] (some ⟨8192, 4096⟩)
            (some (.memoryReturned (some 3) (some 5)))
          = ⟨.nextIteration, none, [⟨8192, 4096⟩, ⟨8192, 4096⟩], []⟩)) :=
  ⟨by decide,
   anomaly_paths_behavior [(3, ⟨true⟩)] ⟨8192, 4096⟩ (some 3) (some 5) (by decide)⟩
